import Mathlib

/-!
Verification development for the channel-participation subsystem of the
hyperledger fabric fork at hand: the node-local channel registry reachable
through the participation HTTP API, the two HTTP client packages
(internal/osnadmin and internal/participation), and the participation CLI.

The registry and HTTP handler themselves (orderer/common/multichannel and
orderer/common/channelparticipation in the upstream tree) are not among the
supplied sources; they are modelled from the specification, with every
behavioural choice the specification leaves open pinned to what the
integration and unit tests in the sources assert.
-/

/-- Channel status as reported by the participation API: "active",
"inactive" or "onboarding". -/
inductive ChannelStatus
  | active
  | inactive
  | onboarding
deriving DecidableEq

/-- Cluster relation of the node to a channel, reported as
"member", "follower", "config-tracker" or "none". -/
inductive ClusterRelation
  | member
  | follower
  | configTracker
  | none
deriving DecidableEq

def ChannelStatus.toLabel : ChannelStatus → String
  | .active => "active"
  | .inactive => "inactive"
  | .onboarding => "onboarding"

def ClusterRelation.toLabel : ClusterRelation → String
  | .member => "member"
  | .follower => "follower"
  | .configTracker => "config-tracker"
  | .none => "none"

/-- Modelled from the spec: a node-local channel entry of the Channel
Registry (the registry implementation is not among the sources). Fields
follow section 3 of the spec: status, relation, committed height, and the
system-channel flag. -/
structure ChannelEntry where
  status : ChannelStatus
  relation : ClusterRelation
  height : Nat
  isSystem : Bool
deriving DecidableEq

/-- Modelled from the spec: the block supplied at join time (JoinArtifact).
The registry inspects its block number, whether it carries a channel
configuration, whether it defines a system channel, and whether this node
appears in its consenter set. -/
structure JoinBlock where
  number : Nat
  isConfig : Bool
  isSystem : Bool
  nodeIsMember : Bool
deriving DecidableEq

/-- Error taxonomy of section 7 of the spec. -/
inductive ParticipationError
  | invalidJoinBlock
  | channelAlreadyExists
  | channelNotExist
  | systemChannelExists
  | applicationChannelsExist
  | unauthenticated
deriving DecidableEq

/-- Modelled from the spec: the node-local Channel Registry, a map from
channel ID to channel entry, kept as an association list with unique keys. -/
structure Registry where
  channels : List (String × ChannelEntry)
deriving DecidableEq

def lookupChannel (r : Registry) (id : String) : Option ChannelEntry :=
  (r.channels.find? (fun p => p.fst == id)).map Prod.snd

def systemChannelId? (r : Registry) : Option String :=
  (r.channels.find? (fun p => p.snd.isSystem)).map Prod.fst

def hasSystemChannel (r : Registry) : Bool :=
  (systemChannelId? r).isSome

def hasAppChannel (r : Registry) : Bool :=
  r.channels.any (fun p => !p.snd.isSystem)

def eraseChannel (r : Registry) (id : String) : Registry :=
  { channels := r.channels.filter (fun p => p.fst != id) }

/-- HTTP status code assigned to each error by the participation API
(section 7 of the spec). -/
def errHTTPStatus : ParticipationError → Nat
  | .invalidJoinBlock => 400
  | .channelAlreadyExists => 405
  | .channelNotExist => 404
  | .systemChannelExists => 405
  | .applicationChannelsExist => 403
  | .unauthenticated => 401

/-- Error body shape of the participation API: a JSON object with a single
"error" member. -/
def jsonError (msg : String) : String :=
  "\x7b\"error\":\"" ++ msg ++ "\"\x7d"

/-- Error message produced on the join path for each error, as asserted by
the integration tests. -/
def joinErrorMessage : ParticipationError → String
  | .invalidJoinBlock => "invalid join block: block is not a config block"
  | .channelAlreadyExists => "cannot join: channel already exists"
  | .channelNotExist => "cannot join: channel does not exist"
  | .systemChannelExists => "cannot join: system channel exists"
  | .applicationChannelsExist => "cannot join: application channels already exist"
  | .unauthenticated => "unauthorized"

/-- Error message produced on the remove path for each error, as asserted
by the tests. -/
def removeErrorMessage : ParticipationError → String
  | .channelNotExist => "cannot remove: channel does not exist"
  | .systemChannelExists => "cannot remove: system channel exists"
  | e => joinErrorMessage e

def joinErrorBody (e : ParticipationError) : String :=
  jsonError (joinErrorMessage e)

def removeErrorBody (e : ParticipationError) : String :=
  jsonError (removeErrorMessage e)

/-- Status of an entry created from a genesis block: active for an
application channel, inactive for a system channel (which only becomes
active after a restart, per the integration tests). -/
def genesisStatus (isSystem : Bool) : ChannelStatus :=
  if isSystem then .inactive else .active

/-- Relation of the joining node, from the consenter set of the supplied
block: member when the node is listed, follower otherwise. -/
def joinRelation (nodeIsMember : Bool) : ClusterRelation :=
  if nodeIsMember then .member else .follower

/-- Modelled from the spec: the Channel Registry join transition (the
registrar implementation is not among the sources). Check order follows
the spec and the integration tests: the supplied block must be a
configuration block (400 otherwise); while a system channel entry exists
every join is rejected with SystemChannelExists; a channel ID that already
has an entry is rejected with ChannelAlreadyExists regardless of the rest
of the block; a system-channel join is rejected with
ApplicationChannelsExist when application channels exist. A genesis block
(number 0) creates the entry immediately at height 1 with no onboarding
state; the tests pin its status to active for an application channel and
inactive for a system channel. A non-genesis configuration block creates
the entry in onboarding state at height 0. -/
def joinChannel (r : Registry) (id : String) (blk : JoinBlock) :
    Except ParticipationError (Registry × ChannelEntry) :=
  if blk.isConfig = false then
    .error .invalidJoinBlock
  else if hasSystemChannel r then
    .error .systemChannelExists
  else if (lookupChannel r id).isSome then
    .error .channelAlreadyExists
  else if blk.isSystem && hasAppChannel r then
    .error .applicationChannelsExist
  else if blk.number = 0 then
    let e : ChannelEntry :=
      { status := genesisStatus blk.isSystem
        relation := joinRelation blk.nodeIsMember
        height := 1
        isSystem := blk.isSystem }
    .ok ({ channels := (id, e) :: r.channels }, e)
  else
    let e : ChannelEntry :=
      { status := .onboarding
        relation := joinRelation blk.nodeIsMember
        height := 0
        isSystem := blk.isSystem }
    .ok ({ channels := (id, e) :: r.channels }, e)

/-- Modelled from the spec: the Channel Registry remove transition. While
a system channel entry exists, removing any other channel is rejected with
SystemChannelExists; removing the system channel itself is the
decommission path exercised by the integration tests and succeeds.
Without a system channel, removing an absent channel is rejected with
ChannelNotExist and removing a present one deletes the entry. -/
def removeChannel (r : Registry) (id : String) : Except ParticipationError Registry :=
  match systemChannelId? r with
  | some sysId =>
      if id = sysId then .ok (eraseChannel r id)
      else .error .systemChannelExists
  | none =>
      if (lookupChannel r id).isSome then .ok (eraseChannel r id)
      else .error .channelNotExist

/-- Full channel info object returned by the participation API for a
single channel. -/
structure ChannelInfo where
  name : String
  url : String
  status : String
  clusterRelation : String
  height : Nat
deriving DecidableEq

def channelInfoOf (id : String) (e : ChannelEntry) : ChannelInfo :=
  { name := id
    url := "/participation/v1/channels/" ++ id
    status := e.status.toLabel
    clusterRelation := e.relation.toLabel
    height := e.height }

/-- Modelled from the spec: GET of a single channel returns the full
channel info object when the channel has an entry, and ChannelNotExist
otherwise. -/
def listOneChannel (r : Registry) (id : String) : Except ParticipationError ChannelInfo :=
  match lookupChannel r id with
  | some e => .ok (channelInfoOf id e)
  | none => .error .channelNotExist

def joinHTTPStatus (r : Registry) (id : String) (blk : JoinBlock) : Nat :=
  match joinChannel r id blk with
  | .ok _ => 201
  | .error e => errHTTPStatus e

def removeHTTPStatus (r : Registry) (id : String) : Nat :=
  match removeChannel r id with
  | .ok _ => 204
  | .error e => errHTTPStatus e

/-- Modelled from the spec: one step of the Block Puller during
onboarding. While the entry is onboarding and behind the channel's
cluster height, one block is pulled and committed; once caught up the
entry transitions to active. -/
def pullStep (clusterHeight : Nat) (e : ChannelEntry) : ChannelEntry :=
  if e.status = .onboarding then
    if e.height < clusterHeight then { e with height := e.height + 1 }
    else { e with status := .active }
  else e

/-! ### HTTP client embedding: internal/osnadmin and internal/participation -/

/-- Byte-escaped field values of a multipart Content-Disposition header,
from the quote escaper of Go's mime/multipart package: a backslash becomes
a double backslash and a double quote becomes backslash-quote. -/
def escapeQuotes (s : String) : String :=
  String.mk (s.data.foldr
    (fun c acc =>
      if c = '\\' then '\\' :: '\\' :: acc
      else if c = '"' then '\\' :: '"' :: acc
      else c :: acc) [])

/-- One part of a multipart/form-data body, as produced by
mime/multipart Writer.CreateFormFile: a field name, a file name, the part
content type and the raw content bytes. -/
structure MultipartPart where
  fieldName : String
  fileName : String
  partContentType : String
  content : List Nat
deriving DecidableEq

/-- The Content-Disposition header value rendered for a form-file part by
mime/multipart: form-data with quoted, escaped name and filename. -/
def contentDisposition (p : MultipartPart) : String :=
  "form-data; name=\"" ++ escapeQuotes p.fieldName ++ "\"; filename=\"" ++
    escapeQuotes p.fileName ++ "\""

/-- A multipart body: the writer's boundary plus its parts in order. -/
structure MultipartBody where
  boundary : String
  parts : List MultipartPart
deriving DecidableEq

/-- The Content-Type header value returned by
mime/multipart Writer.FormDataContentType for a boundary that needs no
quoting (the writer's randomly generated boundaries never do). -/
def formDataContentType (boundary : String) : String :=
  "multipart/form-data; boundary=" ++ boundary

/-- mime/multipart Writer.CreateFormFile: a part with the given field name
and file name, content type application/octet-stream. -/
def createFormFilePart (fieldname filename : String) (content : List Nat) : MultipartPart :=
  { fieldName := fieldname
    fileName := filename
    partContentType := "application/octet-stream"
    content := content }

/-- An outgoing HTTP request as built by the client packages: method, URL,
Content-Type header and multipart body. The multipart boundary is chosen
at random by the writer, so it appears here as a parameter. -/
structure HttpRequest where
  method : String
  url : String
  contentTypeHeader : String
  body : MultipartBody
deriving DecidableEq

/-- createJoinRequest of internal/osnadmin/join.go: writes the block bytes
as a form file named "config-block" with filename channelID.block into a
fresh multipart body, then builds a POST to the given URL whose
Content-Type carries the writer's boundary. -/
def osnadminCreateJoinRequest (url channelID : String) (blockBytes : List Nat)
    (boundary : String) : HttpRequest :=
  let part := createFormFilePart "config-block" (channelID ++ ".block") blockBytes
  { method := "POST"
    url := url
    contentTypeHeader := formDataContentType boundary
    body := { boundary := boundary, parts := [part] } }

/-- createJoinRequest of internal/participation/join.go: writes the block
bytes as a form file named "config-block" with filename channelID.block
into a fresh multipart body, then builds a POST to the given URL whose
Content-Type carries the writer's boundary. -/
def participationCreateJoinRequest (url channelID : String) (blockBytes : List Nat)
    (boundary : String) : HttpRequest :=
  let part := createFormFilePart "config-block" (channelID ++ ".block") blockBytes
  { method := "POST"
    url := url
    contentTypeHeader := formDataContentType boundary
    body := { boundary := boundary, parts := [part] } }

/-- Join of internal/osnadmin/join.go: the join URL is
https://osn/participation/v1/channels, with no channel path segment. -/
def osnadminJoinRequest (osn channelID : String) (blockBytes : List Nat)
    (boundary : String) : HttpRequest :=
  osnadminCreateJoinRequest ("https://" ++ osn ++ "/participation/v1/channels")
    channelID blockBytes boundary

/-- Join of internal/participation/join.go: reads the block bytes from the
config block file (passed here as a value) and builds the same request to
https://osn/participation/v1/channels. -/
def participationJoinRequest (osn channelID : String) (blockBytes : List Nat)
    (boundary : String) : HttpRequest :=
  participationCreateJoinRequest ("https://" ++ osn ++ "/participation/v1/channels")
    channelID blockBytes boundary

/-! ### Participation CLI embedding: cmd/participation/main.go -/

/-- Whether the string s begins with the given characters. -/
def strStarts (s pfx : String) : Bool :=
  pfx.data.isPrefixOf s.data

/-- Splits a character sequence at its first equals sign: everything
before it and, when present, everything after it. -/
def splitCharsEq : List Char → List Char × Option (List Char)
  | [] => ([], Option.none)
  | c :: cs =>
      if c = '=' then ([], Option.some cs)
      else
        let r := splitCharsEq cs
        (c :: r.fst, r.snd)

/-- Splits a flag body at its first equals sign, mirroring Go's flag
package: "name=value" yields the name and the value, a body without an
equals sign yields just the name. -/
def splitFlagEq (s : String) : String × Option String :=
  let r := splitCharsEq s.data
  (String.mk r.fst, r.snd.map String.mk)

/-- Command-line flag parsing of Go's flag package as used by the
participation CLI (string flags only, ExitOnError): arguments are consumed
as -name value, --name value or -name=value until the first non-flag
argument or the "--" terminator; an unknown flag, a malformed flag or a
missing value aborts the process (returned here as Option.none). The
result is the sequence of (name, value) assignments in order. -/
def parseFlags (known : List String) : List String → Option (List (String × String))
  | [] => Option.some []
  | a :: rest =>
    if strStarts a "-" = false ∨ a = "-" then Option.some []
    else if a = "--" then Option.some []
    else
      let body := if strStarts a "--" then a.drop 2 else a.drop 1
      if body = "" ∨ strStarts body "-" ∨ strStarts body "=" then Option.none
      else
        match splitFlagEq body with
        | (name, Option.some v) =>
            if known.contains name then
              match parseFlags known rest with
              | Option.some tl => Option.some ((name, v) :: tl)
              | Option.none => Option.none
            else Option.none
        | (name, Option.none) =>
            if known.contains name then
              match rest with
              | [] => Option.none
              | v :: rest2 =>
                  match parseFlags known rest2 with
                  | Option.some tl => Option.some ((name, v) :: tl)
                  | Option.none => Option.none
            else Option.none

/-- FlagSet.NFlag: the number of distinct flags that have been set. -/
def nflag (assignments : List (String × String)) : Nat :=
  ((assignments.map Prod.fst).eraseDups).length

/-- The final value of a flag after all assignments (later assignments
overwrite earlier ones), or the empty-string default. -/
def flagValue (assignments : List (String × String)) (name : String) : String :=
  match assignments.reverse.find? (fun p => p.fst == name) with
  | Option.some p => p.snd
  | Option.none => ""

def listFlagNames : List String := ["orderer", "tlsDir", "channelID"]

def removeFlagNames : List String := ["orderer", "channelID", "tlsDir"]

def joinFlagNames : List String := ["orderer", "tlsDir", "channelID", "configBlock"]

/-- An HTTP request issued by the participation CLI through the
internal/participation package. -/
inductive ParticipationRequest
  | listAll (osn tlsDir : String)
  | listOne (osn tlsDir channelID : String)
  | removeChan (osn tlsDir channelID : String)
  | joinChan (osn tlsDir channelID configBlockPath : String)
deriving DecidableEq

/-- Observable outcome of one invocation of the participation CLI. -/
inductive CliOutcome
  | crashIndexOutOfRange
  | crashNilDeref
  | exitUsage
  | request (r : ParticipationRequest)
deriving DecidableEq

/-- main of cmd/participation/main.go, on the process argument vector
(program name first). Indexing os.Args[1] without an argument panics.
Each recognized subcommand parses its flag set (ExitOnError) and issues a
request only behind its NFlag guard (list: at least 2, remove and join: at
least 3); every path that issues no request falls through to
printResponse(resp, os.Stdout) with resp still nil, whose resp.Body
dereference panics. -/
def participationCliMain (argv : List String) : CliOutcome :=
  match argv with
  | [] => .crashIndexOutOfRange
  | [_] => .crashIndexOutOfRange
  | _ :: sub :: rest =>
    if sub = "list" then
      match parseFlags listFlagNames rest with
      | Option.none => .exitUsage
      | Option.some fs =>
          if 2 ≤ nflag fs then
            if flagValue fs "channelID" ≠ "" then
              .request (.listOne (flagValue fs "orderer") (flagValue fs "tlsDir")
                (flagValue fs "channelID"))
            else
              .request (.listAll (flagValue fs "orderer") (flagValue fs "tlsDir"))
          else .crashNilDeref
    else if sub = "remove" then
      match parseFlags removeFlagNames rest with
      | Option.none => .exitUsage
      | Option.some fs =>
          if 3 ≤ nflag fs then
            .request (.removeChan (flagValue fs "orderer") (flagValue fs "tlsDir")
              (flagValue fs "channelID"))
          else .crashNilDeref
    else if sub = "join" then
      match parseFlags joinFlagNames rest with
      | Option.none => .exitUsage
      | Option.some fs =>
          if 3 ≤ nflag fs then
            .request (.joinChan (flagValue fs "orderer") (flagValue fs "tlsDir")
              (flagValue fs "channelID") (flagValue fs "configBlock"))
          else .crashNilDeref
    else
      match parseFlags [] (sub :: rest) with
      | Option.none => .exitUsage
      | Option.some _ => .crashNilDeref

/-! ### TLS client authentication gate of the operations endpoint -/

/-- Modelled from the spec: the TLS client certificate presented with a
request, reduced to whether it verifies against the trusted CA. -/
structure TLSClientCert where
  signedByTrustedCA : Bool
deriving DecidableEq

/-- A participation API operation addressed by a request. -/
inductive ParticipationOp
  | joinOp (channelID : String) (blk : JoinBlock)
  | removeOp (channelID : String)
  | listOneOp (channelID : String)
  | listAllOp
deriving DecidableEq

/-- A request to the participation endpoints together with its optional
TLS client certificate. -/
structure OpsRequest where
  clientCert : Option TLSClientCert
  op : ParticipationOp
deriving DecidableEq

/-- HTTP status produced by each operation once past authentication. -/
def dispatchStatus (r : Registry) : ParticipationOp → Nat
  | .joinOp id blk => joinHTTPStatus r id blk
  | .removeOp id => removeHTTPStatus r id
  | .listOneOp id =>
      match listOneChannel r id with
      | .ok _ => 200
      | .error e => errHTTPStatus e
  | .listAllOp => 200

/-- Modelled from the spec: every participation endpoint requires a
mutually authenticated TLS client certificate; a request without one, or
with one the trusted CA did not sign, is rejected with 401 before
dispatch. -/
def handleOpsRequest (r : Registry) (req : OpsRequest) : Nat :=
  match req.clientCert with
  | Option.none => errHTTPStatus .unauthenticated
  | Option.some c =>
      if c.signedByTrustedCA then dispatchStatus r req.op
      else errHTTPStatus .unauthenticated

/-! ### Concrete fixtures drawn from the integration test scenarios -/

def exceptIsOk : Except ParticipationError α → Bool
  | .ok _ => true
  | .error _ => false

/-- The genesis block of an application channel, as produced for channel
"participation-trophy" by the integration tests, seen from a node in its
consenter set. -/
def appGenesisBlock : JoinBlock :=
  { number := 0, isConfig := true, isSystem := false, nodeIsMember := true }

/-- The system-channel genesis block of the "create system channel on
empty network" scenario. -/
def sysGenesisBlock : JoinBlock :=
  { number := 0, isConfig := true, isSystem := true, nodeIsMember := true }

/-- A block that is not a configuration block (the integration test joins
channel "nice-try" with an empty block). -/
def invalidBlock : JoinBlock :=
  { number := 0, isConfig := false, isSystem := false, nodeIsMember := false }

/-- A later configuration block of "participation-trophy", used by
orderer3 to join as a follower. -/
def laterConfigBlock : JoinBlock :=
  { number := 2, isConfig := true, isSystem := false, nodeIsMember := false }

def emptyRegistry : Registry := { channels := [] }

/-- The entry created by joining an application channel from its genesis
block as a member. -/
def appGenesisEntry : ChannelEntry :=
  { status := .active, relation := .member, height := 1, isSystem := false }

/-- The entry created by joining the system channel from its genesis
block. -/
def sysGenesisEntry : ChannelEntry :=
  { status := .inactive, relation := .member, height := 1, isSystem := true }

/-- A node holding only the application channel "participation-trophy". -/
def ptRegistry : Registry :=
  { channels := [("participation-trophy", appGenesisEntry)] }

/-- A node holding only the system channel. -/
def sysOnlyRegistry : Registry :=
  { channels := [("systemchannel", sysGenesisEntry)] }

/-- A node holding the system channel and the legacy application channel
"testchannel", as in the "network with a system channel" scenario. -/
def sysAndAppRegistry : Registry :=
  { channels := [("systemchannel", sysGenesisEntry), ("testchannel", appGenesisEntry)] }

/-! ### Helper lemmas -/

theorem errHTTPStatus_ne_401 (e : ParticipationError) (h : e ≠ .unauthenticated) :
    errHTTPStatus e ≠ 401 := by
  cases e <;> simp_all [errHTTPStatus]

theorem joinChannel_error_ne_unauth (r : Registry) (id : String) (blk : JoinBlock)
    (e : ParticipationError) (h : joinChannel r id blk = .error e) :
    e ≠ .unauthenticated := by
  unfold joinChannel at h
  split_ifs at h <;> simp_all <;> subst h <;> simp

theorem removeChannel_error_ne_unauth (r : Registry) (id : String)
    (e : ParticipationError) (h : removeChannel r id = .error e) :
    e ≠ .unauthenticated := by
  rcases hs : systemChannelId? r with _ | s <;>
    simp only [removeChannel, hs] at h <;>
    split_ifs at h
  all_goals injection h with h2
  all_goals subst h2
  all_goals decide

theorem listOneChannel_error_ne_unauth (r : Registry) (id : String)
    (e : ParticipationError) (h : listOneChannel r id = .error e) :
    e ≠ .unauthenticated := by
  unfold listOneChannel at h
  rcases hl : lookupChannel r id with _ | v <;> rw [hl] at h <;> simp_all <;>
    subst h <;> simp

/-- Iterating the Block Puller d + 1 times from an onboarding entry d
blocks behind the cluster height lands exactly on an active entry at the
cluster height. -/
theorem pullStep_reaches (c : Nat) :
    ∀ (d : Nat) (e : ChannelEntry), e.status = .onboarding → e.height + d = c →
      (pullStep c)^[d + 1] e = { e with status := .active, height := c } := by
  intro d
  induction d with
  | zero =>
      intro e hs hh
      have hc : e.height = c := by omega
      have hnl : ¬ e.height < c := by omega
      have h1 : (pullStep c)^[0 + 1] e = pullStep c e := by simp
      rw [h1]
      unfold pullStep
      rw [if_pos hs, if_neg hnl]
      cases e
      simp_all
  | succ d ih =>
      intro e hs hh
      have hlt : e.height < c := by omega
      have hstep : pullStep c e = { e with height := e.height + 1 } := by
        simp [pullStep, hs, hlt]
      rw [Function.iterate_succ_apply, hstep]
      have := ih { e with height := e.height + 1 } (by simp [hs]) (by simp; omega)
      simpa using this

/-- An application channel entry in the onboarding phase, as created for
orderer3 joining "participation-trophy" with a later config block. -/
def onboardingEntryPT : ChannelEntry :=
  { status := .onboarding, relation := .follower, height := 0, isSystem := false }

/-- C1 (amended): every join carrying a genesis block (number 0) creates
the channel entry immediately at height 1 with no intermediate onboarding
state; the status of the new entry is active for an application channel
but inactive for a system channel. -/
theorem c1_genesis_join_immediate (r : Registry) (id : String) (blk : JoinBlock)
    (r' : Registry) (e : ChannelEntry)
    (hnum : blk.number = 0)
    (h : joinChannel r id blk = .ok (r', e)) :
    e.height = 1 ∧
    e.status = (if blk.isSystem then ChannelStatus.inactive else ChannelStatus.active) ∧
    e.status ≠ .onboarding ∧
    lookupChannel r' id = some e := by
  unfold joinChannel at h
  split_ifs at h with h1 h2 h3 h4
  injection h with hp
  injection hp with hA hB
  subst hB
  subst hA
  refine ⟨rfl, rfl, ?_, ?_⟩
  · cases hb : blk.isSystem <;> simp [genesisStatus, hb]
  · simp [lookupChannel]

/-- Closed instance of the c1 theorem: joining "participation-trophy"
from its genesis block on an empty node yields an active entry of height
one at once. -/
theorem c1_genesis_join_immediate_witness :
    appGenesisBlock.number = 0 ∧
    joinChannel emptyRegistry "participation-trophy" appGenesisBlock =
      .ok (ptRegistry, appGenesisEntry) ∧
    (appGenesisEntry.height = 1 ∧
     appGenesisEntry.status =
       (if appGenesisBlock.isSystem then ChannelStatus.inactive else ChannelStatus.active) ∧
     appGenesisEntry.status ≠ .onboarding ∧
     lookupChannel ptRegistry "participation-trophy" = some appGenesisEntry) :=
  ⟨rfl, rfl,
    c1_genesis_join_immediate emptyRegistry "participation-trophy" appGenesisBlock
      ptRegistry appGenesisEntry rfl rfl⟩

/-- Counterexample to C1 as stated: joining the system channel from its
genesis block creates the entry at height 1, but with status inactive,
not active, exactly as the system-channel integration test expects. -/
theorem c1_counterexample_system_genesis :
    sysGenesisBlock.number = 0 ∧
    joinChannel emptyRegistry "systemchannel" sysGenesisBlock =
      .ok (sysOnlyRegistry, sysGenesisEntry) ∧
    sysGenesisEntry.height = 1 ∧
    sysGenesisEntry.status ≠ ChannelStatus.active := by
  refine ⟨rfl, rfl, rfl, ?_⟩
  decide

/-- C2: a join carrying a non-genesis configuration block reports
status onboarding at height 0, and iterating the Block Puller against the
channel's cluster height — the submitter's height at join time plus the
k blocks committed since — yields an active entry exactly at that
height. -/
theorem c2_config_block_join_onboarding :
    (∀ (r : Registry) (id : String) (blk : JoinBlock) (r' : Registry) (e : ChannelEntry),
        blk.number ≠ 0 →
        joinChannel r id blk = .ok (r', e) →
        e.status = .onboarding ∧ e.height = 0 ∧
        (channelInfoOf id e).status = "onboarding" ∧ (channelInfoOf id e).height = 0) ∧
    (∀ (e : ChannelEntry) (joinHeight k : Nat),
        e.status = .onboarding → e.height = 0 →
        (pullStep (joinHeight + k))^[joinHeight + k + 1] e =
          { e with status := .active, height := joinHeight + k }) := by
  constructor
  · intro r id blk r' e hnum h
    unfold joinChannel at h
    split_ifs at h with h1 h2 h3 h4
    injection h with hp
    injection hp with hA hB
    subst hB
    subst hA
    exact ⟨rfl, rfl, rfl, rfl⟩
  · intro e joinHeight k hs hh
    exact pullStep_reaches (joinHeight + k) (joinHeight + k) e hs (by omega)

/-- Closed instance of the c2 theorem: orderer3 joins
"participation-trophy" with a config block while the channel is at height
3; the join reports onboarding at height 0 and four pull steps later the
entry is active at height 3. -/
theorem c2_config_block_join_onboarding_witness :
    laterConfigBlock.number ≠ 0 ∧
    (onboardingEntryPT.status = .onboarding ∧ onboardingEntryPT.height = 0 ∧
     (channelInfoOf "participation-trophy" onboardingEntryPT).status = "onboarding" ∧
     (channelInfoOf "participation-trophy" onboardingEntryPT).height = 0) ∧
    (pullStep (3 + 0))^[3 + 0 + 1] onboardingEntryPT =
      { onboardingEntryPT with status := .active, height := 3 + 0 } :=
  ⟨by decide,
   c2_config_block_join_onboarding.1 emptyRegistry "participation-trophy" laterConfigBlock
     { channels := [("participation-trophy", onboardingEntryPT)] } onboardingEntryPT
     (by decide) rfl,
   c2_config_block_join_onboarding.2 onboardingEntryPT 3 0 rfl rfl⟩

/-- C3 (amended): while a system channel entry exists, every join
carrying a configuration block fails with SystemChannelExists (HTTP 405,
join body), and every remove of a channel other than the system channel
itself fails with SystemChannelExists (HTTP 405, remove body), while
removing the system channel itself — the decommission path of the
integration test — succeeds; a join targeting a system channel while
application channels exist and no system channel entry is present fails
with ApplicationChannelsExist (HTTP 403); and once no system channel
entry remains, joining fresh application channels and removing existing
channels succeed. -/
theorem c3_system_channel_exclusivity :
    (∀ (r : Registry) (id : String) (blk : JoinBlock),
        hasSystemChannel r = true → blk.isConfig = true →
        joinChannel r id blk = .error .systemChannelExists ∧
        errHTTPStatus .systemChannelExists = 405 ∧
        joinErrorBody .systemChannelExists =
          "\x7b\"error\":\"cannot join: system channel exists\"\x7d") ∧
    (∀ (r : Registry) (s id : String),
        systemChannelId? r = some s → id ≠ s →
        removeChannel r id = .error .systemChannelExists ∧
        errHTTPStatus .systemChannelExists = 405 ∧
        removeErrorBody .systemChannelExists =
          "\x7b\"error\":\"cannot remove: system channel exists\"\x7d") ∧
    (∀ (r : Registry) (s : String),
        systemChannelId? r = some s →
        removeChannel r s = .ok (eraseChannel r s)) ∧
    (∀ (r : Registry) (id : String) (blk : JoinBlock),
        hasSystemChannel r = false → blk.isConfig = true → blk.isSystem = true →
        hasAppChannel r = true → lookupChannel r id = Option.none →
        joinChannel r id blk = .error .applicationChannelsExist ∧
        errHTTPStatus .applicationChannelsExist = 403 ∧
        joinErrorBody .applicationChannelsExist =
          "\x7b\"error\":\"cannot join: application channels already exist\"\x7d") ∧
    (∀ (r : Registry) (s : String),
        systemChannelId? r = some s →
        (∀ p ∈ r.channels, p.snd.isSystem = true → p.fst = s) →
        hasSystemChannel (eraseChannel r s) = false) ∧
    (∀ (r : Registry) (id : String) (blk : JoinBlock),
        hasSystemChannel r = false → blk.isConfig = true → blk.isSystem = false →
        lookupChannel r id = Option.none →
        exceptIsOk (joinChannel r id blk) = true) ∧
    (∀ (r : Registry) (id : String),
        hasSystemChannel r = false → (lookupChannel r id).isSome = true →
        removeChannel r id = .ok (eraseChannel r id)) := by
  refine ⟨?_, ?_, ?_, ?_, ?_, ?_, ?_⟩
  · intro r id blk h1 h2
    refine ⟨?_, rfl, rfl⟩
    simp [joinChannel, h1, h2]
  · intro r s id hs hneq
    refine ⟨?_, rfl, rfl⟩
    simp [removeChannel, hs, hneq]
  · intro r s hs
    simp [removeChannel, hs]
  · intro r id blk h1 h2 h3 h4 h5
    refine ⟨?_, rfl, rfl⟩
    simp [joinChannel, h1, h2, h3, h4, h5]
  · intro r s hs huniq
    have hnone : (eraseChannel r s).channels.find? (fun p => p.snd.isSystem) =
        Option.none := by
      rw [List.find?_eq_none]
      intro p hp hsys
      rw [eraseChannel] at hp
      simp only [List.mem_filter] at hp
      have hfst := huniq p hp.1 (by simpa using hsys)
      have hneq : p.fst ≠ s := by simpa using hp.2
      exact hneq hfst
    simp [hasSystemChannel, systemChannelId?, hnone]
  · intro r id blk h1 h2 h3 h4
    by_cases hn : blk.number = 0 <;>
      simp [joinChannel, h1, h2, h3, h4, hn, exceptIsOk]
  · intro r id h1 h2
    cases hx : systemChannelId? r with
    | some s =>
        rw [hasSystemChannel, hx] at h1
        simp at h1
    | none => simp [removeChannel, hx, h2]

/-- Counterexample to C3 as stated: on a node holding the system channel
and the legacy channel "testchannel", removing the system channel itself
succeeds with 204 rather than failing with 405. -/
theorem c3_counterexample_remove_system_channel :
    hasSystemChannel sysAndAppRegistry = true ∧
    removeChannel sysAndAppRegistry "systemchannel" =
      .ok (eraseChannel sysAndAppRegistry "systemchannel") ∧
    removeHTTPStatus sysAndAppRegistry "systemchannel" = 204 :=
  ⟨rfl, rfl, rfl⟩

/-- Closed instance of the c3 theorem on the registries of the
integration scenario. -/
theorem c3_system_channel_exclusivity_witness :
    (joinChannel sysAndAppRegistry "participation-trophy" appGenesisBlock =
        .error .systemChannelExists ∧
     errHTTPStatus .systemChannelExists = 405 ∧
     joinErrorBody .systemChannelExists =
       "\x7b\"error\":\"cannot join: system channel exists\"\x7d") ∧
    (removeChannel sysAndAppRegistry "testchannel" = .error .systemChannelExists ∧
     errHTTPStatus .systemChannelExists = 405 ∧
     removeErrorBody .systemChannelExists =
       "\x7b\"error\":\"cannot remove: system channel exists\"\x7d") ∧
    removeChannel sysAndAppRegistry "systemchannel" =
      .ok (eraseChannel sysAndAppRegistry "systemchannel") ∧
    (joinChannel ptRegistry "systemchannel" sysGenesisBlock =
        .error .applicationChannelsExist ∧
     errHTTPStatus .applicationChannelsExist = 403 ∧
     joinErrorBody .applicationChannelsExist =
       "\x7b\"error\":\"cannot join: application channels already exist\"\x7d") ∧
    hasSystemChannel (eraseChannel sysAndAppRegistry "systemchannel") = false ∧
    exceptIsOk (joinChannel (eraseChannel sysAndAppRegistry "systemchannel")
      "another-participation-trophy" appGenesisBlock) = true ∧
    removeChannel (eraseChannel sysAndAppRegistry "systemchannel") "testchannel" =
      .ok (eraseChannel (eraseChannel sysAndAppRegistry "systemchannel") "testchannel") :=
  ⟨c3_system_channel_exclusivity.1 sysAndAppRegistry "participation-trophy"
      appGenesisBlock rfl rfl,
   c3_system_channel_exclusivity.2.1 sysAndAppRegistry "systemchannel" "testchannel"
      rfl (by decide),
   c3_system_channel_exclusivity.2.2.1 sysAndAppRegistry "systemchannel" rfl,
   c3_system_channel_exclusivity.2.2.2.1 ptRegistry "systemchannel" sysGenesisBlock
      rfl rfl rfl rfl rfl,
   c3_system_channel_exclusivity.2.2.2.2.1 sysAndAppRegistry "systemchannel" rfl
      (by decide),
   c3_system_channel_exclusivity.2.2.2.2.2.1 (eraseChannel sysAndAppRegistry "systemchannel")
      "another-participation-trophy" appGenesisBlock rfl rfl rfl rfl,
   c3_system_channel_exclusivity.2.2.2.2.2.2 (eraseChannel sysAndAppRegistry "systemchannel")
      "testchannel" rfl rfl⟩

/-- C4 (amended): when no system channel entry exists, every join
carrying a configuration block whose channel ID already has an entry (in
any status) fails with ChannelAlreadyExists, HTTP 405, with the exact
error body, regardless of the rest of the supplied block. -/
theorem c4_join_existing_channel (r : Registry) (id : String) (blk : JoinBlock)
    (e : ChannelEntry)
    (hsys : hasSystemChannel r = false)
    (hcfg : blk.isConfig = true)
    (hex : lookupChannel r id = some e) :
    joinChannel r id blk = .error .channelAlreadyExists ∧
    errHTTPStatus .channelAlreadyExists = 405 ∧
    joinErrorBody .channelAlreadyExists =
      "\x7b\"error\":\"cannot join: channel already exists\"\x7d" := by
  refine ⟨?_, rfl, rfl⟩
  simp [joinChannel, hsys, hcfg, hex]

/-- Closed instance of the c4 theorem: re-joining "participation-trophy"
with its own genesis block fails with ChannelAlreadyExists. -/
theorem c4_join_existing_channel_witness :
    joinChannel ptRegistry "participation-trophy" appGenesisBlock =
      .error .channelAlreadyExists ∧
    errHTTPStatus .channelAlreadyExists = 405 ∧
    joinErrorBody .channelAlreadyExists =
      "\x7b\"error\":\"cannot join: channel already exists\"\x7d" :=
  c4_join_existing_channel ptRegistry "participation-trophy" appGenesisBlock
    appGenesisEntry rfl rfl rfl

/-- Counterexample to C4 as stated: a join of an existing channel does
not always fail with ChannelAlreadyExists — with a non-configuration
block it fails with InvalidJoinBlock (HTTP 400), and while a system
channel entry exists it fails with SystemChannelExists. -/
theorem c4_counterexample_join_existing :
    (lookupChannel ptRegistry "participation-trophy" = some appGenesisEntry ∧
     joinChannel ptRegistry "participation-trophy" invalidBlock =
       .error .invalidJoinBlock ∧
     errHTTPStatus .invalidJoinBlock = 400) ∧
    (lookupChannel sysAndAppRegistry "testchannel" = some appGenesisEntry ∧
     joinChannel sysAndAppRegistry "testchannel" appGenesisBlock =
       .error .systemChannelExists) :=
  ⟨⟨rfl, rfl, rfl⟩, ⟨rfl, rfl⟩⟩

/-- C5 (amended): when no system channel entry exists, a DELETE of a
channel ID with no entry fails with ChannelNotExist, HTTP 404, with the
exact error body, and a DELETE of an existing channel succeeds with
HTTP 204. -/
theorem c5_remove_channel :
    (∀ (r : Registry) (id : String),
        hasSystemChannel r = false → lookupChannel r id = Option.none →
        removeChannel r id = .error .channelNotExist ∧
        errHTTPStatus .channelNotExist = 404 ∧
        removeErrorBody .channelNotExist =
          "\x7b\"error\":\"cannot remove: channel does not exist\"\x7d") ∧
    (∀ (r : Registry) (id : String),
        hasSystemChannel r = false → (lookupChannel r id).isSome = true →
        removeChannel r id = .ok (eraseChannel r id) ∧
        removeHTTPStatus r id = 204) := by
  constructor
  · intro r id h1 h2
    refine ⟨?_, rfl, rfl⟩
    cases hx : systemChannelId? r with
    | some s =>
        rw [hasSystemChannel, hx] at h1
        simp at h1
    | none => simp [removeChannel, hx, h2]
  · intro r id h1 h2
    cases hx : systemChannelId? r with
    | some s =>
        rw [hasSystemChannel, hx] at h1
        simp at h1
    | none =>
        constructor
        · simp [removeChannel, hx, h2]
        · simp [removeHTTPStatus, removeChannel, hx, h2]

/-- Closed instance of the c5 theorem: on a node holding only
"participation-trophy", deleting an absent channel yields 404 with the
exact body, deleting the present one yields 204. -/
theorem c5_remove_channel_witness :
    (removeChannel ptRegistry "no-such-channel" = .error .channelNotExist ∧
     errHTTPStatus .channelNotExist = 404 ∧
     removeErrorBody .channelNotExist =
       "\x7b\"error\":\"cannot remove: channel does not exist\"\x7d") ∧
    (removeChannel ptRegistry "participation-trophy" =
       .ok (eraseChannel ptRegistry "participation-trophy") ∧
     removeHTTPStatus ptRegistry "participation-trophy" = 204) :=
  ⟨c5_remove_channel.1 ptRegistry "no-such-channel" rfl rfl,
   c5_remove_channel.2 ptRegistry "participation-trophy" rfl rfl⟩

/-- Counterexample to C5 as stated: while a system channel entry exists,
a DELETE of an absent channel fails with SystemChannelExists (HTTP 405),
not ChannelNotExist (HTTP 404). -/
theorem c5_counterexample_remove_absent :
    lookupChannel sysOnlyRegistry "no-such-channel" = Option.none ∧
    removeChannel sysOnlyRegistry "no-such-channel" = .error .systemChannelExists ∧
    removeHTTPStatus sysOnlyRegistry "no-such-channel" = 405 :=
  ⟨rfl, rfl, rfl⟩

/-- C6: for every channel ID that has an entry, GET of the single
channel returns the full channel info object — name, url, status,
clusterRelation and height — and the url field of the single-channel
response is populated with the channel's participation URL, which is
never empty. -/
theorem c6_list_single_channel (r : Registry) (id : String) (e : ChannelEntry)
    (h : lookupChannel r id = some e) :
    listOneChannel r id = .ok
      { name := id
        url := "/participation/v1/channels/" ++ id
        status := e.status.toLabel
        clusterRelation := e.relation.toLabel
        height := e.height } ∧
    "/participation/v1/channels/" ++ id ≠ "" := by
  constructor
  · simp only [listOneChannel, h]
    rfl
  · intro hcontra
    obtain ⟨l⟩ := id
    have hd : ("/participation/v1/channels/" ++ String.mk l).data =
        "/participation/v1/channels/".data ++ l := rfl
    have h0 := congrArg String.data hcontra
    rw [hd] at h0
    have h1 := List.append_eq_nil.mp h0
    exact absurd h1.1 (by decide)

/-- Closed instance of the c6 theorem for "participation-trophy". -/
theorem c6_list_single_channel_witness :
    listOneChannel ptRegistry "participation-trophy" = .ok
      { name := "participation-trophy"
        url := "/participation/v1/channels/" ++ "participation-trophy"
        status := appGenesisEntry.status.toLabel
        clusterRelation := appGenesisEntry.relation.toLabel
        height := appGenesisEntry.height } ∧
    "/participation/v1/channels/" ++ "participation-trophy" ≠ "" :=
  c6_list_single_channel ptRegistry "participation-trophy" appGenesisEntry rfl

/-- C7: every join issued by the osnadmin or participation client
packages is a POST to https://osn/participation/v1/channels whose
multipart body holds exactly one file part named "config-block" with
filename channelID.block and content equal to the supplied block bytes,
and whose Content-Type header carries the body's boundary; the URL does
not depend on the channel ID (the ID travels only in the part); and a
join is successful exactly when the server answers 201. -/
theorem c7_join_request_shape :
    (∀ (osn channelID : String) (blockBytes : List Nat) (boundary : String),
        osnadminJoinRequest osn channelID blockBytes boundary =
          { method := "POST"
            url := "https://" ++ osn ++ "/participation/v1/channels"
            contentTypeHeader := "multipart/form-data; boundary=" ++ boundary
            body := { boundary := boundary
                      parts := [{ fieldName := "config-block"
                                  fileName := channelID ++ ".block"
                                  partContentType := "application/octet-stream"
                                  content := blockBytes }] } } ∧
        participationJoinRequest osn channelID blockBytes boundary =
          osnadminJoinRequest osn channelID blockBytes boundary) ∧
    (∀ (osn id1 id2 : String) (blockBytes : List Nat) (boundary : String),
        (osnadminJoinRequest osn id1 blockBytes boundary).url =
          (osnadminJoinRequest osn id2 blockBytes boundary).url) ∧
    (∀ (r : Registry) (id : String) (blk : JoinBlock),
        exceptIsOk (joinChannel r id blk) = true ↔ joinHTTPStatus r id blk = 201) := by
  refine ⟨?_, ?_, ?_⟩
  · intro osn channelID blockBytes boundary
    exact ⟨rfl, rfl⟩
  · intro osn id1 id2 blockBytes boundary
    rfl
  · intro r id blk
    cases hj : joinChannel r id blk with
    | ok v => simp [exceptIsOk, joinHTTPStatus, hj]
    | error e =>
        simp only [exceptIsOk, joinHTTPStatus, hj]
        constructor
        · intro hcontra
          exact absurd hcontra (by simp)
        · intro hcontra
          exact absurd hcontra (by cases e <;> simp [errHTTPStatus])

/-- C8: every request to a participation endpoint without a TLS client
certificate is answered 401, and a request with a certificate the
trusted CA signed is never answered 401. -/
theorem c8_tls_client_auth :
    (∀ (r : Registry) (op : ParticipationOp),
        handleOpsRequest r { clientCert := Option.none, op := op } = 401) ∧
    (∀ (r : Registry) (op : ParticipationOp) (c : TLSClientCert),
        c.signedByTrustedCA = true →
        handleOpsRequest r { clientCert := Option.some c, op := op } ≠ 401) := by
  constructor
  · intro r op
    rfl
  · intro r op c hc
    have hgoal : handleOpsRequest r { clientCert := Option.some c, op := op } =
        dispatchStatus r op := by
      simp [handleOpsRequest, hc]
    rw [hgoal]
    cases op with
    | joinOp id blk =>
        cases hj : joinChannel r id blk with
        | ok v => simp [dispatchStatus, joinHTTPStatus, hj]
        | error e =>
            have hne := joinChannel_error_ne_unauth r id blk e hj
            simp only [dispatchStatus, joinHTTPStatus, hj]
            exact errHTTPStatus_ne_401 e hne
    | removeOp id =>
        cases hj : removeChannel r id with
        | ok v => simp [dispatchStatus, removeHTTPStatus, hj]
        | error e =>
            have hne := removeChannel_error_ne_unauth r id e hj
            simp only [dispatchStatus, removeHTTPStatus, hj]
            exact errHTTPStatus_ne_401 e hne
    | listOneOp id =>
        cases hj : listOneChannel r id with
        | ok v => simp [dispatchStatus, hj]
        | error e =>
            have hne := listOneChannel_error_ne_unauth r id e hj
            simp only [dispatchStatus, hj]
            exact errHTTPStatus_ne_401 e hne
    | listAllOp => simp [dispatchStatus]

/-- Closed instance of the c8 theorem: a list request without a client
certificate is answered 401, one with a CA-signed certificate is not. -/
theorem c8_tls_client_auth_witness :
    handleOpsRequest emptyRegistry { clientCert := Option.none, op := .listAllOp } = 401 ∧
    handleOpsRequest emptyRegistry
      { clientCert := Option.some { signedByTrustedCA := true }, op := .listAllOp } ≠ 401 :=
  ⟨c8_tls_client_auth.1 emptyRegistry .listAllOp,
   c8_tls_client_auth.2 emptyRegistry .listAllOp { signedByTrustedCA := true } rfl⟩

/-- C9: the participation CLI crashes on every invocation that issues no
HTTP request: with no arguments the os.Args index panics; with an
unrecognized first argument, or a recognized subcommand whose parsed
flag count is below its guard (list: 2, remove and join: 3), main hands
the nil response to printResponse, whose body dereference panics. -/
theorem c9_cli_nil_response_crash :
    (participationCliMain [] = .crashIndexOutOfRange ∧
     ∀ (prog : String), participationCliMain [prog] = .crashIndexOutOfRange) ∧
    (∀ (prog sub : String) (rest : List String) (fs : List (String × String)),
        sub ≠ "list" → sub ≠ "remove" → sub ≠ "join" →
        parseFlags [] (sub :: rest) = Option.some fs →
        participationCliMain (prog :: sub :: rest) = .crashNilDeref) ∧
    (∀ (prog : String) (rest : List String) (fs : List (String × String)),
        parseFlags listFlagNames rest = Option.some fs → nflag fs < 2 →
        participationCliMain (prog :: "list" :: rest) = .crashNilDeref) ∧
    (∀ (prog : String) (rest : List String) (fs : List (String × String)),
        parseFlags removeFlagNames rest = Option.some fs → nflag fs < 3 →
        participationCliMain (prog :: "remove" :: rest) = .crashNilDeref) ∧
    (∀ (prog : String) (rest : List String) (fs : List (String × String)),
        parseFlags joinFlagNames rest = Option.some fs → nflag fs < 3 →
        participationCliMain (prog :: "join" :: rest) = .crashNilDeref) := by
  refine ⟨⟨rfl, fun prog => rfl⟩, ?_, ?_, ?_, ?_⟩
  · intro prog sub rest fs h1 h2 h3 hp
    simp [participationCliMain, h1, h2, h3, hp]
  · intro prog rest fs hp hn
    have h2 : ¬ 2 ≤ nflag fs := by omega
    simp [participationCliMain, hp, h2]
  · intro prog rest fs hp hn
    have h2 : ¬ 3 ≤ nflag fs := by omega
    simp [participationCliMain, hp, h2]
  · intro prog rest fs hp hn
    have h2 : ¬ 3 ≤ nflag fs := by omega
    simp [participationCliMain, hp, h2]

/-- Closed instances of the c9 theorem: no arguments, an unknown
subcommand, and each subcommand one flag short of its guard all crash. -/
theorem c9_cli_nil_response_crash_witness :
    participationCliMain ["participation"] = .crashIndexOutOfRange ∧
    participationCliMain ["participation", "frob"] = .crashNilDeref ∧
    participationCliMain ["participation", "list", "--orderer", "o1"] = .crashNilDeref ∧
    participationCliMain ["participation", "remove", "--orderer", "o1", "--channelID", "c"] =
      .crashNilDeref ∧
    participationCliMain ["participation", "join", "--orderer", "o1", "--tlsDir", "t"] =
      .crashNilDeref :=
  ⟨c9_cli_nil_response_crash.1.2 "participation",
   c9_cli_nil_response_crash.2.1 "participation" "frob" [] []
     (by decide) (by decide) (by decide) rfl,
   c9_cli_nil_response_crash.2.2.1 "participation" ["--orderer", "o1"]
     [("orderer", "o1")] rfl (by decide),
   c9_cli_nil_response_crash.2.2.2.1 "participation"
     ["--orderer", "o1", "--channelID", "c"]
     [("orderer", "o1"), ("channelID", "c")] rfl (by decide),
   c9_cli_nil_response_crash.2.2.2.2 "participation"
     ["--orderer", "o1", "--tlsDir", "t"]
     [("orderer", "o1"), ("tlsDir", "t")] rfl (by decide)⟩

/-- C10: createJoinRequest of package osnadmin and createJoinRequest of
package participation are extensionally equal: on every URL, channel ID,
block bytes and boundary they build identical requests. -/
theorem c10_createJoinRequest_equivalent :
    ∀ (url channelID : String) (blockBytes : List Nat) (boundary : String),
      osnadminCreateJoinRequest url channelID blockBytes boundary =
        participationCreateJoinRequest url channelID blockBytes boundary := by
  intro url channelID blockBytes boundary
  rfl
